import Mathlib

/-!
FPLServer — FDR pipeline, shallow embedding

A shallow embedding of the FDR (Fixture Difficulty Rating) calculation
endpoint (`POST /api/fdr/calculate`, current revision) and of the quick
stats sync endpoint (`POST /api/sync/quick-stats`), together with proofs
about the staleness gate, the calculation recorder, the backfill step,
the rating projection, and the sync tiering.

Modelling conventions:
* JavaScript numbers are modelled as `Int` (no claim here involves
  fractional arithmetic; values flowing through `|| d` fallbacks only
  distinguish zero/nonzero/null).
* Nullable / possibly-absent JS values are `Option Int`; the JS `x || d`
  numeric fallback (null, undefined and 0 are falsy) is `jsOr`.
* Timestamps are epoch milliseconds (`Int`); ISO strings in the code are
  identified with their epoch value.
* Database tables are `List` of row structures; a Supabase
  `upsert(records, { onConflict: key })` replaces any existing row with
  the same key and appends otherwise.
-/

/-- JS numeric `x || d`: `null`/`undefined` and `0` are falsy. -/
def jsOr (x : Option Int) (d : Int) : Int :=
  match x with
  | none => d
  | some v => if v = 0 then d else v

/-- JS `Math.round (t / d)` for integer `t` and positive integer `d`:
rounds half toward positive infinity, `⌊t/d + 1/2⌋`. -/
def jsRoundDiv (t d : Int) : Int :=
  Int.fdiv (2 * t + d) (2 * d)

/-- Insertion into a JS `Set` realised as an order-preserving list:
append iff not already present (`src/pages/api/sync/quick-stats.js`
builds `recentPlayerIds` this way). -/
def dedupAppend (acc : List Nat) (x : Nat) : List Nat :=
  if acc.contains x then acc else acc ++ [x]

/-- Fold a whole list into the JS-`Set` list. -/
def dedupList (xs : List Nat) : List Nat :=
  xs.foldl dedupAppend []

theorem mem_foldl_dedupAppend (xs : List Nat) (acc : List Nat) (x : Nat) :
    x ∈ xs.foldl dedupAppend acc ↔ x ∈ acc ∨ x ∈ xs := by
  induction xs generalizing acc with
  | nil => simp
  | cons y ys ih =>
      simp only [List.foldl_cons, ih, dedupAppend]
      by_cases h : acc.contains y
      · simp only [h, if_pos]
        have : y ∈ acc := by simpa using h
        constructor
        · rintro (hx | hx)
          · exact Or.inl hx
          · exact Or.inr (List.mem_cons_of_mem _ hx)
        · rintro (hx | hx)
          · exact Or.inl hx
          · rcases List.mem_cons.mp hx with rfl | hx
            · exact Or.inl this
            · exact Or.inr hx
      · simp only [h, if_neg, Bool.false_eq_true, not_false_iff, List.mem_append,
          List.mem_singleton]
        constructor
        · rintro ((hx | hx) | hx)
          · exact Or.inl hx
          · exact Or.inr (by simp [hx])
          · exact Or.inr (List.mem_cons_of_mem _ hx)
        · rintro (hx | hx)
          · exact Or.inl (Or.inl hx)
          · rcases List.mem_cons.mp hx with rfl | hx
            · exact Or.inl (Or.inr rfl)
            · exact Or.inr hx

theorem mem_dedupList (xs : List Nat) (x : Nat) :
    x ∈ dedupList xs ↔ x ∈ xs := by
  unfold dedupList
  rw [mem_foldl_dedupAppend]
  simp

theorem nodup_foldl_dedupAppend (xs : List Nat) (acc : List Nat)
    (hacc : acc.Nodup) : (xs.foldl dedupAppend acc).Nodup := by
  induction xs generalizing acc with
  | nil => simpa using hacc
  | cons y ys ih =>
      simp only [List.foldl_cons]
      apply ih
      unfold dedupAppend
      by_cases h : acc.contains y
      · have hy : y ∈ acc := by simpa using h
        simpa [hy] using hacc
      · have hy : y ∉ acc := by simpa using h
        simp [hy, List.nodup_append, hacc]

theorem nodup_dedupList (xs : List Nat) : (dedupList xs).Nodup :=
  nodup_foldl_dedupAppend xs [] List.nodup_nil

/-! ## Data model (`src/unnamed/part_011`, current revision)

`team_fdr_calculations` rows, `teams` rows, the scorer RPC's output rows,
and the current-gameweek marker. -/

/-- One output row of the `calculate_team_fdr()` SQL RPC, as consumed by
the handler (fields read in `src/unnamed/part_011` lines 123–137 and
234–241). All numeric fields may be null. -/
structure FdrResult where
  team_id : Nat
  team_name : String
  games_played : Option Int
  home_goals_scored_per_90 : Option Int
  home_goals_scored_per_90_score : Option Int
  away_goals_scored_per_90 : Option Int
  away_goals_scored_per_90_score : Option Int
  home_difficulty : Option Int
  away_difficulty : Option Int
deriving DecidableEq, Repr

/-- One row of the `team_fdr_calculations` table, exactly the columns the
handler writes (`src/unnamed/part_011` lines 123–137). -/
structure FdrRow where
  team_id : Nat
  season_id : Nat
  gameweek_calculated : Nat
  games_played : Int
  home_goals_scored_per_90 : Int
  home_goals_scored_per_90_score : Int
  away_goals_scored_per_90 : Int
  away_goals_scored_per_90_score : Int
  home_difficulty : Int
  away_difficulty : Int
  calculation_timestamp : Int
deriving DecidableEq, Repr

/-- One row of the `teams` table, restricted to the columns the handler
touches (`src/unnamed/part_011` lines 200–209). -/
structure TeamRow where
  id : Nat
  home_difficulty : Option Int
  away_difficulty : Option Int
  updated_at : Option Int
deriving DecidableEq, Repr

/-- The current-gameweek marker (`gameweeks` row with `is_current`,
columns `id, name`). -/
structure GW where
  id : Nat
  name : String
deriving DecidableEq, Repr

/-- The database state the handler reads and writes. -/
structure DBState where
  calcs : List FdrRow
  teams : List TeamRow
deriving DecidableEq, Repr

/-! ## Staleness Gate (`src/unnamed/part_011` lines 57–89) -/

/-- `const ONE_HOUR = 60 * 60 * 1000` (milliseconds). -/
def ONE_HOUR : Int := 60 * 60 * 1000

/-- The `lastCalc` query: the `team_fdr_calculations` row with the
greatest `calculation_timestamp` (order descending, limit 1; `none` on an
empty table). -/
def lastCalcOf : List FdrRow → Option FdrRow
  | [] => none
  | r :: rs =>
      match lastCalcOf rs with
      | none => some r
      | some m =>
          if m.calculation_timestamp ≤ r.calculation_timestamp then some r else some m

/-- `isStale` (`src/unnamed/part_011` lines 76–78):
`!lastCalc || lastCalc.gameweek_calculated !== currentGW?.id ||
timeSinceLastCalc > ONE_HOUR`.  When `currentGW` is absent the JS
comparison is against `undefined` and is always a mismatch. -/
def isStale (lastCalc : Option FdrRow) (currentGWid : Option Nat) (now : Int) : Bool :=
  match lastCalc with
  | none => true
  | some lc =>
      (match currentGWid with
       | none => true
       | some g => decide (lc.gameweek_calculated ≠ g))
      || decide (now - lc.calculation_timestamp > ONE_HOUR)

/-! ## Calculation Recorder (`src/unnamed/part_011` lines 120–211) -/

/-- The calculation record the handler builds for one scorer-output row
(`src/unnamed/part_011` lines 123–137), JS `||` fallbacks included. -/
def mkCalcRecord (seasonId gwId : Nat) (ts : Int) (team : FdrResult) : FdrRow :=
  { team_id := team.team_id
    season_id := seasonId
    gameweek_calculated := gwId
    games_played := jsOr team.games_played 0
    home_goals_scored_per_90 := jsOr team.home_goals_scored_per_90 0
    home_goals_scored_per_90_score := jsOr team.home_goals_scored_per_90_score 5
    away_goals_scored_per_90 := jsOr team.away_goals_scored_per_90 0
    away_goals_scored_per_90_score := jsOr team.away_goals_scored_per_90_score 5
    home_difficulty := jsOr team.home_difficulty 5
    away_difficulty := jsOr team.away_difficulty 5
    calculation_timestamp := ts }

/-- The neutral-default record written for a missing team
(`src/unnamed/part_011` lines 170–182). -/
def backfillRecord (seasonId gwId : Nat) (ts : Int) (teamId : Nat) : FdrRow :=
  { team_id := teamId
    season_id := seasonId
    gameweek_calculated := gwId
    games_played := 0
    home_goals_scored_per_90 := 0
    home_goals_scored_per_90_score := 5
    away_goals_scored_per_90 := 0
    away_goals_scored_per_90_score := 5
    home_difficulty := 5
    away_difficulty := 5
    calculation_timestamp := ts }

/-- Supabase `upsert(records, { onConflict: 'team_id' })` on
`team_fdr_calculations`: for each record in order, the existing row with
the same `team_id` (if any) is replaced, otherwise the record is
inserted. -/
def upsertByTeam (table : List FdrRow) (records : List FdrRow) : List FdrRow :=
  records.foldl (fun t r => t.filter (fun row => row.team_id ≠ r.team_id) ++ [r]) table

/-- The first 20 team ids of the `teams` table (the query
`select('id').order('id').limit(20)`; the table is modelled as already
ordered by id). -/
def allTeamIds (db : DBState) : List Nat :=
  (db.teams.map (·.id)).take 20

/-- Step 3 of the handler: the `team_fdr_calculations` table after the
calculation-record upsert.  `insertOk` models whether the upsert
succeeds; a failure is logged and not fatal, leaving the table
unchanged. -/
def insertStepCalcs (db : DBState) (gw : GW) (seasonId : Nat)
    (fdrResults : List FdrResult) (insertOk : Bool) (ts : Int) : List FdrRow :=
  if insertOk then upsertByTeam db.calcs (fdrResults.map (mkCalcRecord seasonId gw.id ts))
  else db.calcs

/-- Step 3.5's `missingTeams` (`src/unnamed/part_011` lines 164–166):
known teams with no `team_fdr_calculations` row at all — the
`calculatedTeams` query selects every `team_id` of the table, with no
gameweek filter. -/
def missingTeams (db : DBState) (calcs1 : List FdrRow) : List Nat :=
  (allTeamIds db).filter (fun t => ¬ (calcs1.map (·.team_id)).contains t)

/-- Steps 3 and 3.5 of the handler: store the calculation records, then
backfill every known team that has no `team_fdr_calculations` row at all
(`backfillOk` models the backfill upsert's success). -/
def recorderSteps (db : DBState) (gw : GW) (seasonId : Nat)
    (fdrResults : List FdrResult) (insertOk backfillOk : Bool) (ts : Int) :
    List FdrRow :=
  let calcs1 := insertStepCalcs db gw seasonId fdrResults insertOk ts
  let missing := missingTeams db calcs1
  if missing.length > 0 then
    if backfillOk then upsertByTeam calcs1 (missing.map (backfillRecord seasonId gw.id ts))
    else calcs1
  else calcs1

/-- One `teams`-table UPDATE issued for one scorer-output row
(`src/unnamed/part_011` lines 200–209): raw difficulties (no `||`
fallback here) and a fresh `updated_at`. -/
def applyUpdate (ts : Int) (team : FdrResult) (row : TeamRow) : TeamRow :=
  if row.id = team.team_id then
    { row with
      home_difficulty := team.home_difficulty
      away_difficulty := team.away_difficulty
      updated_at := some ts }
  else row

/-- Step 4: all the per-team UPDATEs applied to the `teams` table (each
UPDATE touches exactly the rows whose `id` matches, so the net effect on
each row is the in-order application of its matching updates). -/
def updateTeams (teams : List TeamRow) (fdrResults : List FdrResult) (ts : Int) :
    List TeamRow :=
  teams.map (fun row => fdrResults.foldl (fun row team => applyUpdate ts team row) row)

/-! ## Response shape (`src/unnamed/part_011` lines 80–88 and 226–242) -/

/-- One entry of `sample_ratings` (lines 234–241): raw scorer-output
values, no fallbacks. -/
structure SampleRating where
  team : String
  games_played : Option Int
  home_goals_per_90 : Option Int
  home_difficulty : Option Int
  away_goals_per_90 : Option Int
  away_difficulty : Option Int
deriving DecidableEq, Repr

def mkSample (t : FdrResult) : SampleRating :=
  { team := t.team_name
    games_played := t.games_played
    home_goals_per_90 := t.home_goals_scored_per_90
    home_difficulty := t.home_difficulty
    away_goals_per_90 := t.away_goals_scored_per_90
    away_difficulty := t.away_difficulty }

/-- The success response body of the calculate endpoint (lines 226–242),
restricted to its data fields. -/
structure CalcResponse where
  gameweek : String
  teams_updated : Nat
  duration_seconds : Int
  sample_ratings : List SampleRating
deriving DecidableEq, Repr

/-- The JSON keys of the success response object (lines 226–242). -/
def calcResponseTopKeys : List String :=
  ["success", "message", "stats", "sample_ratings"]

/-- The JSON keys of the `stats` sub-object (lines 229–233). -/
def calcResponseStatsKeys : List String :=
  ["gameweek", "teams_updated", "duration_seconds"]

/-- The JSON keys of each `sample_ratings` entry (lines 234–241). -/
def sampleRatingKeys : List String :=
  ["team", "games_played", "home_goals_per_90", "home_difficulty",
   "away_goals_per_90", "away_difficulty"]

/-- The observable outcome of one invocation of the calculate endpoint
(after authorization): the FRESH short-circuit (lines 80–89), the 500
failure (lines 244–253), or the 200 success (lines 226–242). -/
inductive FdrOutcome where
  | skipped (last_calculation : Int) (minutes_since_update : Int)
  | failed (message : String)
  | completed (resp : CalcResponse)
deriving DecidableEq, Repr

def FdrOutcome.isFailed : FdrOutcome → Bool
  | .failed _ => true
  | _ => false

def FdrOutcome.isSkipped : FdrOutcome → Bool
  | .skipped _ _ => true
  | _ => false

def FdrOutcome.isCompleted : FdrOutcome → Bool
  | .completed _ => true
  | _ => false

/-- The calculate handler (`src/unnamed/part_011`, current revision,
lines 56–242), after authorization, as a state transition.
Inputs model the externally observed values of the run: the database
state, the current-gameweek query result, the `calculate_team_fdr()`
RPC result (`none` = RPC error), the current-season query result, the
success of the two audit upserts, the clock `now`, the record timestamp
`ts`, and the measured duration. -/
def fdrHandler (db : DBState) (currentGW : Option GW)
    (calcRpc : Option (List FdrResult)) (currentSeason : Option Nat)
    (insertOk backfillOk : Bool) (now ts durationSec : Int) :
    FdrOutcome × DBState :=
  let lastCalc := lastCalcOf db.calcs
  if isStale lastCalc (currentGW.map (·.id)) now then
    match calcRpc with
    | none => (.failed "FDR calculation failed", db)
    | some fdrResults =>
        if fdrResults.length = 0 then
          (.failed "FDR calculation returned no results", db)
        else
          let calcs2 :=
            match currentGW, currentSeason with
            | some gw, some seasonId =>
                recorderSteps db gw seasonId fdrResults insertOk backfillOk ts
            | _, _ => db.calcs
          let teams2 := updateTeams db.teams fdrResults ts
          let resp : CalcResponse :=
            { gameweek := match currentGW with | some gw => gw.name | none => "Unknown"
              teams_updated := fdrResults.length
              duration_seconds := durationSec
              sample_ratings := (fdrResults.take 3).map mkSample }
          (.completed resp, { calcs := calcs2, teams := teams2 })
  else
    match lastCalc with
    | some lc =>
        (.skipped lc.calculation_timestamp
          (jsRoundDiv (now - lc.calculation_timestamp) 60000), db)
    | none => (.skipped 0 0, db)

/-! ## Sync Tiering Controller (`src/pages/api/sync/quick-stats.js`) -/

/-- One entry of a fixture's `stats` array; `h` and `a` are the home and
away participant lists, each participant read through `p.element`
(player id).  Either list may be absent. -/
structure StatEntry where
  h : Option (List Nat)
  a : Option (List Nat)
deriving DecidableEq, Repr

/-- One fixture from `GET /fixtures/`: `event` is the gameweek id (null
for unscheduled fixtures), `finished` the completion flag, `stats` the
per-stat participant lists. -/
structure Fixture where
  event : Option Int
  finished : Bool
  stats : Option (List StatEntry)
deriving DecidableEq, Repr

/-- `recentGWs` (`quick-stats.js` line 67):
`[currentGW.id, currentGW.id - 1, currentGW.id - 2].filter(gw => gw > 0)`. -/
def recentGWs (g : Int) : List Int :=
  [g, g - 1, g - 2].filter (fun gw => 0 < gw)

/-- The filter of `recentFixtures` (lines 68–72):
`f.finished && f.event && recentGWs.includes(f.event)`; a zero `event` is
falsy in JS. -/
def isRecentFixture (g : Int) (f : Fixture) : Bool :=
  f.finished &&
    (match f.event with
     | none => false
     | some e => decide (e ≠ 0) && (recentGWs g).contains e)

/-- All player ids of one fixture's participant lists, home then away,
in iteration order (lines 78–85). -/
def fixturePlayers (f : Fixture) : List Nat :=
  match f.stats with
  | none => []
  | some entries => (entries.map (fun e => e.h.getD [] ++ e.a.getD [])).flatten

/-- `recentPlayerIds` (lines 77–87): the JS `Set` of every participant of
every recent fixture, in insertion order. -/
def recentPlayerIds (fixtures : List Fixture) (g : Int) : List Nat :=
  dedupList (((fixtures.filter (isRecentFixture g)).map fixturePlayers).flatten)

/-- One entry of a player's `element-summary` history, exactly the fields
`quick-stats.js` lines 111–147 read.  Fields read through `|| 0` may be
null. -/
structure GwData where
  round : Int
  opponent_team : Int
  was_home : Bool
  kickoff_time : Int
  total_points : Int
  minutes : Int
  goals_scored : Int
  assists : Int
  clean_sheets : Int
  goals_conceded : Int
  bonus : Int
  bps : Int
  own_goals : Option Int
  penalties_saved : Option Int
  penalties_missed : Option Int
  yellow_cards : Option Int
  red_cards : Option Int
  saves : Option Int
  expected_goals : Option Int
  expected_assists : Option Int
  expected_goal_involvements : Option Int
  expected_goals_conceded : Option Int
  value : Int
  selected : Int
  transfers_in : Option Int
  transfers_out : Option Int
  influence : Option Int
  creativity : Option Int
  threat : Option Int
  ict_index : Option Int

/-- One row upserted into `player_gameweek_stats` (lines 113–147),
conflict key `(player_id, gameweek_id)`. -/
structure StatRow where
  player_id : Nat
  gameweek_id : Int
  opponent_team : Int
  was_home : Bool
  kickoff_time : Int
  total_points : Int
  minutes : Int
  goals_scored : Int
  assists : Int
  clean_sheets : Int
  goals_conceded : Int
  bonus : Int
  bps : Int
  own_goals : Int
  penalties_saved : Int
  penalties_missed : Int
  yellow_cards : Int
  red_cards : Int
  saves : Int
  expected_goals : Int
  expected_assists : Int
  expected_goal_involvements : Int
  expected_goals_conceded : Int
  value : Int
  selected : Int
  transfers_in : Int
  transfers_out : Int
  influence : Int
  creativity : Int
  threat : Int
  ict_index : Int

/-- The upsert row built from one history entry (lines 113–147). -/
def mkStatRow (playerId : Nat) (d : GwData) : StatRow :=
  { player_id := playerId
    gameweek_id := d.round
    opponent_team := d.opponent_team
    was_home := d.was_home
    kickoff_time := d.kickoff_time
    total_points := d.total_points
    minutes := d.minutes
    goals_scored := d.goals_scored
    assists := d.assists
    clean_sheets := d.clean_sheets
    goals_conceded := d.goals_conceded
    bonus := d.bonus
    bps := d.bps
    own_goals := jsOr d.own_goals 0
    penalties_saved := jsOr d.penalties_saved 0
    penalties_missed := jsOr d.penalties_missed 0
    yellow_cards := jsOr d.yellow_cards 0
    red_cards := jsOr d.red_cards 0
    saves := jsOr d.saves 0
    expected_goals := jsOr d.expected_goals 0
    expected_assists := jsOr d.expected_assists 0
    expected_goal_involvements := jsOr d.expected_goal_involvements 0
    expected_goals_conceded := jsOr d.expected_goals_conceded 0
    value := d.value
    selected := d.selected
    transfers_in := jsOr d.transfers_in 0
    transfers_out := jsOr d.transfers_out 0
    influence := jsOr d.influence 0
    creativity := jsOr d.creativity 0
    threat := jsOr d.threat 0
    ict_index := jsOr d.ict_index 0 }

/-- The rows one player's sync attempts to store: history entries
filtered by `recentGWs.includes(gwData.round)` (line 112). -/
def storedRows (playerId : Nat) (history : List GwData) (g : Int) : List StatRow :=
  (history.filter (fun d => (recentGWs g).contains d.round)).map (mkStatRow playerId)

/-- The outcome of one player's `element-summary` fetch: the returned
history, or a fetch failure (non-ok HTTP status / network error). -/
inductive FetchOutcome where
  | ok (history : List GwData)
  | fail

/-- One player's sync (lines 98–161): a fetch failure counts one error;
otherwise each row inside the recent window is upserted, counting one
update on success and one error on a per-row persistence failure
(`upsertOk playerId round` models the per-row write outcome).
Returns `(stats updated, errors)`. -/
def syncPlayer (g : Int) (playerId : Nat) (fetch : FetchOutcome)
    (upsertOk : Nat → Int → Bool) : Nat × Nat :=
  match fetch with
  | .fail => (0, 1)
  | .ok history =>
      (history.filter (fun d => (recentGWs g).contains d.round)).foldl
        (fun acc d =>
          if upsertOk playerId d.round then (acc.1 + 1, acc.2) else (acc.1, acc.2 + 1))
        (0, 0)

/-- The `stats` object of the quick-sync success response (lines
183–190), restricted to the counters. -/
structure QuickStats where
  players_synced : Nat
  stats_updated : Nat
  errors : Nat
deriving DecidableEq, Repr

/-- The observable outcome of one quick-sync invocation (after
authorization): the 500 failure path (a thrown error) or the 200
success. -/
inductive QuickOutcome where
  | failed (message : String)
  | success (stats : QuickStats)
deriving DecidableEq, Repr

def QuickOutcome.isFailed : QuickOutcome → Bool
  | .failed _ => true
  | _ => false

/-- The quick-stats handler (`quick-stats.js` lines 45–191), after
authorization, as a function of the externally observed values: the
current-gameweek query result, the fixtures fetch (`none` = non-ok HTTP
status), each player's summary fetch, and each row-level upsert
outcome.  Per-player failures are caught inside the batch loop and only
counted; the run throws (fails) only before the loop. -/
def quickStatsRun (currentGW : Option GW) (fixtures : Option (List Fixture))
    (fetch : Nat → FetchOutcome) (upsertOk : Nat → Int → Bool) : QuickOutcome :=
  match currentGW with
  | none => .failed "No current gameweek found"
  | some gw =>
      match fixtures with
      | none => .failed "FPL API error"
      | some fs =>
          let g : Int := gw.id
          let playerIds := recentPlayerIds fs g
          let totals := playerIds.foldl
            (fun acc pid =>
              let r := syncPlayer g pid (fetch pid) upsertOk
              (acc.1 + r.1, acc.2 + r.2))
            ((0 : Nat), (0 : Nat))
          .success
            { players_synced := playerIds.length
              stats_updated := totals.1
              errors := totals.2 }

/-! ## The scorer RPC, modelled from the spec

Modelled from the spec: the `calculate_team_fdr()` SQL function lives in
the database and is not part of src/; §4.2 of the specification states
that teams with zero games played receive the neutral rating 5 for both
home and away.  A scorer output satisfying that contract is
characterised by the following predicate (a zero-games team is one whose
`games_played` is null or 0, i.e. whose recorded `games_played` is 0). -/
def specScorerNeutralZeroGames (results : List FdrResult) : Prop :=
  ∀ r ∈ results, (r.games_played = none ∨ r.games_played = some 0) →
    r.home_difficulty = some 5 ∧ r.away_difficulty = some 5

instance (results : List FdrResult) : Decidable (specScorerNeutralZeroGames results) := by
  unfold specScorerNeutralZeroGames
  infer_instance

/-! ## Helper lemmas -/

theorem jsOr_eq_zero_iff (x : Option Int) :
    jsOr x 0 = 0 ↔ x = none ∨ x = some 0 := by
  cases x with
  | none => simp [jsOr]
  | some v =>
      by_cases h : v = 0 <;> simp [jsOr, h]

/-- The invariant "at most one `team_fdr_calculations` row per team". -/
def atMostOnePerTeam (l : List FdrRow) : Prop :=
  l.Pairwise (fun a b => a.team_id ≠ b.team_id)

instance (l : List FdrRow) : Decidable (atMostOnePerTeam l) := by
  unfold atMostOnePerTeam
  infer_instance

theorem mem_upsertByTeam (table recs : List FdrRow) (x : FdrRow)
    (hx : x ∈ upsertByTeam table recs) :
    x ∈ recs ∨ (x ∈ table ∧ x.team_id ∉ recs.map (·.team_id)) := by
  induction recs generalizing table with
  | nil => simpa [upsertByTeam] using hx
  | cons r rs ih =>
      have hx' : x ∈ upsertByTeam (table.filter (fun row => row.team_id ≠ r.team_id) ++ [r]) rs := hx
      rcases ih _ hx' with h | ⟨hmem, hteam⟩
      · exact Or.inl (List.mem_cons_of_mem _ h)
      · rcases List.mem_append.mp hmem with hf | hr
        · have := List.mem_filter.mp hf
          refine Or.inr ⟨this.1, ?_⟩
          simp only [List.map_cons, List.mem_cons]
          rintro (h1 | h2)
          · have hne : x.team_id ≠ r.team_id := by simpa using this.2
            exact hne h1
          · exact hteam (by simpa using h2)
        · have hxr : x = r := List.mem_singleton.mp hr
          exact Or.inl (hxr ▸ List.mem_cons_self r rs)

theorem mem_upsertByTeam_of_untouched (table recs : List FdrRow) (x : FdrRow)
    (hx : x ∈ table) (h : x.team_id ∉ recs.map (·.team_id)) :
    x ∈ upsertByTeam table recs := by
  induction recs generalizing table with
  | nil => simpa [upsertByTeam] using hx
  | cons r rs ih =>
      have hne : x.team_id ≠ r.team_id := by
        intro he; exact h (by simp [he])
      have hx' : x ∈ table.filter (fun row => row.team_id ≠ r.team_id) ++ [r] :=
        List.mem_append.mpr (Or.inl (List.mem_filter.mpr ⟨hx, by simpa using hne⟩))
      exact ih _ hx' (fun hm => h (by simp only [List.map_cons, List.mem_cons]; exact Or.inr hm))

theorem exists_team_upsertByTeam_of_table (table recs : List FdrRow) (t : Nat)
    (h : ∃ x ∈ table, x.team_id = t) :
    ∃ x ∈ upsertByTeam table recs, x.team_id = t := by
  induction recs generalizing table with
  | nil => simpa [upsertByTeam] using h
  | cons r rs ih =>
      apply ih
      rcases h with ⟨x, hx, hxt⟩
      by_cases he : x.team_id = r.team_id
      · exact ⟨r, List.mem_append.mpr (Or.inr (List.mem_singleton.mpr rfl)), by rw [← he, hxt]⟩
      · exact ⟨x, List.mem_append.mpr (Or.inl (List.mem_filter.mpr ⟨hx, by simpa using he⟩)), hxt⟩

theorem exists_team_upsertByTeam_of_records (table recs : List FdrRow) (t : Nat)
    (h : t ∈ recs.map (·.team_id)) :
    ∃ x ∈ upsertByTeam table recs, x.team_id = t := by
  induction recs generalizing table with
  | nil => simp at h
  | cons r rs ih =>
      rcases (by simpa using h : t = r.team_id ∨ ∃ a ∈ rs, a.team_id = t) with h1 | ⟨a, ha, hat⟩
      · exact exists_team_upsertByTeam_of_table _ rs t
          ⟨r, List.mem_append.mpr (Or.inr (List.mem_singleton.mpr rfl)), h1.symm⟩
      · exact ih _ (List.mem_map.mpr ⟨a, ha, hat⟩)

theorem mem_upsertByTeam_of_functional (table recs : List FdrRow) (r : FdrRow)
    (hr : r ∈ recs) (huniq : ∀ r' ∈ recs, r'.team_id = r.team_id → r' = r) :
    r ∈ upsertByTeam table recs := by
  induction recs generalizing table with
  | nil => simp at hr
  | cons q qs ih =>
      have hstep : upsertByTeam table (q :: qs) =
          upsertByTeam (table.filter (fun row => row.team_id ≠ q.team_id) ++ [q]) qs := rfl
      rw [hstep]
      rcases List.mem_cons.mp hr with rfl | hmem
      · by_cases hqs : r ∈ qs
        · exact ih _ hqs (fun r' h' ht => huniq r' (List.mem_cons_of_mem _ h') ht)
        · apply mem_upsertByTeam_of_untouched
          · exact List.mem_append.mpr (Or.inr (List.mem_singleton.mpr rfl))
          · intro hm
            rcases List.mem_map.mp hm with ⟨r', hr', ht⟩
            exact hqs ((huniq r' (List.mem_cons_of_mem _ hr') ht) ▸ hr')
      · exact ih _ hmem (fun r' h' ht => huniq r' (List.mem_cons_of_mem _ h') ht)

theorem atMostOnePerTeam_upsertByTeam (table recs : List FdrRow)
    (h : atMostOnePerTeam table) : atMostOnePerTeam (upsertByTeam table recs) := by
  induction recs generalizing table with
  | nil => simpa [upsertByTeam] using h
  | cons r rs ih =>
      apply ih
      unfold atMostOnePerTeam at h ⊢
      rw [List.pairwise_append]
      refine ⟨h.filter _, List.pairwise_singleton _ _, ?_⟩
      intro a ha b hb
      rw [List.mem_singleton] at hb
      subst hb
      simpa using (List.mem_filter.mp ha).2

theorem applyUpdate_id (ts : Int) (team : FdrResult) (row : TeamRow) :
    (applyUpdate ts team row).id = row.id := by
  unfold applyUpdate
  split <;> rfl

theorem foldl_applyUpdate_id (results : List FdrResult) (ts : Int) (row : TeamRow) :
    (results.foldl (fun row team => applyUpdate ts team row) row).id = row.id := by
  induction results generalizing row with
  | nil => rfl
  | cons q qs ih => rw [List.foldl_cons, ih, applyUpdate_id]

theorem foldl_applyUpdate_of_no_match (results : List FdrResult) (ts : Int) (row : TeamRow)
    (h : ∀ q ∈ results, q.team_id ≠ row.id) :
    results.foldl (fun row team => applyUpdate ts team row) row = row := by
  induction results generalizing row with
  | nil => rfl
  | cons q qs ih =>
      rw [List.foldl_cons]
      have hq : applyUpdate ts q row = row := by
        unfold applyUpdate
        rw [if_neg]
        intro he
        exact h q (List.mem_cons_self _ _) he.symm
      rw [hq]
      exact ih row (fun p hp => h p (List.mem_cons_of_mem _ hp))

theorem foldl_applyUpdate_sets_fields (results : List FdrResult) (ts : Int)
    (row : TeamRow) (r : FdrResult) (hr : r ∈ results) (hid : row.id = r.team_id)
    (hnodup : (results.map (·.team_id)).Nodup) :
    (results.foldl (fun row team => applyUpdate ts team row) row).home_difficulty
        = r.home_difficulty ∧
    (results.foldl (fun row team => applyUpdate ts team row) row).away_difficulty
        = r.away_difficulty ∧
    (results.foldl (fun row team => applyUpdate ts team row) row).updated_at = some ts := by
  induction results generalizing row with
  | nil => simp at hr
  | cons q qs ih =>
      rw [List.map_cons, List.nodup_cons] at hnodup
      rcases List.mem_cons.mp hr with rfl | hmem
      · rw [List.foldl_cons]
        have hset : applyUpdate ts r row =
            { row with home_difficulty := r.home_difficulty
                       away_difficulty := r.away_difficulty
                       updated_at := some ts } := by
          unfold applyUpdate
          rw [if_pos hid]
        rw [hset, foldl_applyUpdate_of_no_match]
        · exact ⟨rfl, rfl, rfl⟩
        · intro p hp he
          exact hnodup.1 (List.mem_map.mpr ⟨p, hp, he.trans hid⟩)
      · rw [List.foldl_cons]
        exact ih (applyUpdate ts q row) hmem ((applyUpdate_id ts q row).trans hid) hnodup.2

theorem mem_updateTeams (teams : List TeamRow) (results : List FdrResult) (ts : Int)
    (x : TeamRow) (hx : x ∈ updateTeams teams results ts) :
    ∃ row ∈ teams, x = results.foldl (fun row team => applyUpdate ts team row) row := by
  rcases List.mem_map.mp hx with ⟨row, hrow, hmap⟩
  exact ⟨row, hrow, hmap.symm⟩

theorem quickStats_totals (ids : List Nat) (g : Int) (fetch : Nat → FetchOutcome)
    (up : Nat → Int → Bool) (a b : Nat) :
    ids.foldl
      (fun acc pid =>
        let r := syncPlayer g pid (fetch pid) up
        (acc.1 + r.1, acc.2 + r.2)) (a, b)
    = (a + (ids.map (fun p => (syncPlayer g p (fetch p) up).1)).sum,
       b + (ids.map (fun p => (syncPlayer g p (fetch p) up).2)).sum) := by
  induction ids generalizing a b with
  | nil => simp
  | cons p ps ih =>
      rw [List.foldl_cons, ih]
      simp [Nat.add_assoc]

/-! ## Claims -/

/-- C1: the Staleness Gate returns STALE exactly when no prior
calculation row exists, or the last calculation's recorded gameweek
differs from the current gameweek, or the elapsed time since the last
calculation strictly exceeds the one-hour window; with the same gameweek
and elapsed time not exceeding the window it returns FRESH. -/
theorem c1_staleness_gate (lastCalc : Option FdrRow) (g : Nat) (now : Int) :
    (isStale lastCalc (some g) now = true ↔
      (lastCalc = none ∨ ∃ lc, lastCalc = some lc ∧
        (lc.gameweek_calculated ≠ g ∨ now - lc.calculation_timestamp > ONE_HOUR))) ∧
    (isStale lastCalc (some g) now = false ↔
      (∃ lc, lastCalc = some lc ∧ lc.gameweek_calculated = g ∧
        now - lc.calculation_timestamp ≤ ONE_HOUR)) := by
  cases lastCalc with
  | none => simp [isStale]
  | some lc =>
      simp only [isStale, Bool.or_eq_true, decide_eq_true_eq, Option.some.injEq]
      constructor
      · constructor
        · intro h
          refine Or.inr ⟨lc, rfl, ?_⟩
          rcases h with h | h
          · exact Or.inl h
          · exact Or.inr h
        · rintro (h | ⟨lc', hlc', h⟩)
          · exact absurd h (by simp)
          · cases hlc'
            rcases h with h | h
            · exact Or.inl h
            · exact Or.inr h
      · rw [Bool.or_eq_false_iff]
        simp only [decide_eq_false_iff_not, not_not, not_lt]
        constructor
        · rintro ⟨h1, h2⟩
          exact ⟨lc, rfl, h1, h2⟩
        · rintro ⟨lc', hlc', h1, h2⟩
          cases hlc'
          exact ⟨h1, h2⟩

/-- C1 witness: the spec's three scenarios at concrete inputs, derived
by applying `c1_staleness_gate`. -/
theorem c1_staleness_gate_witness :
    isStale none (some 23) 1000 = true ∧
    isStale (some (backfillRecord 1 23 0 7)) (some 23) 60000 = false ∧
    isStale (some (backfillRecord 1 23 0 7)) (some 23) 3600001 = true :=
  ⟨(c1_staleness_gate none 23 1000).1.mpr (Or.inl rfl),
   (c1_staleness_gate (some (backfillRecord 1 23 0 7)) 23 60000).2.mpr
     ⟨backfillRecord 1 23 0 7, rfl, by decide, by decide⟩,
   (c1_staleness_gate (some (backfillRecord 1 23 0 7)) 23 3600001).1.mpr
     (Or.inr ⟨backfillRecord 1 23 0 7, rfl, Or.inr (by decide)⟩)⟩

/-- C8: when the Staleness Gate determines FRESH, the invocation
short-circuits with a "skipped" result reporting minutes since the last
update and performs no writes: the stored state after the invocation
equals the state before it. -/
theorem c8_fresh_short_circuit (db : DBState) (currentGW : Option GW)
    (calcRpc : Option (List FdrResult)) (currentSeason : Option Nat)
    (insertOk backfillOk : Bool) (now ts durationSec : Int)
    (hfresh : isStale (lastCalcOf db.calcs) (currentGW.map (·.id)) now = false) :
    ∃ lc, lastCalcOf db.calcs = some lc ∧
      fdrHandler db currentGW calcRpc currentSeason insertOk backfillOk now ts durationSec =
        (FdrOutcome.skipped lc.calculation_timestamp
          (jsRoundDiv (now - lc.calculation_timestamp) 60000), db) := by
  cases hlc : lastCalcOf db.calcs with
  | none =>
      rw [hlc] at hfresh
      simp [isStale] at hfresh
  | some lc =>
      refine ⟨lc, rfl, ?_⟩
      unfold fdrHandler
      rw [hlc] at hfresh ⊢
      rw [if_neg (by simp [hfresh])]

/-- C8 witness: a concrete FRESH invocation (same gameweek, one minute
elapsed) returns the skipped result and leaves the database unchanged. -/
theorem c8_fresh_short_circuit_witness :
    ∃ lc, lastCalcOf (DBState.mk [backfillRecord 1 3 0 7] []).calcs = some lc ∧
      fdrHandler (DBState.mk [backfillRecord 1 3 0 7] []) (some (GW.mk 3 "Gameweek 3"))
          (some []) (some 1) true true 60000 60500 1 =
        (FdrOutcome.skipped lc.calculation_timestamp
          (jsRoundDiv (60000 - lc.calculation_timestamp) 60000),
         DBState.mk [backfillRecord 1 3 0 7] []) :=
  c8_fresh_short_circuit (DBState.mk [backfillRecord 1 3 0 7] [])
    (some (GW.mk 3 "Gameweek 3")) (some []) (some 1) true true 60000 60500 1 (by decide)

/-- C2 counterexample: a row recorded for a prior gameweek is not
retained.  A first run records team 7 at gameweek 1; a later run for
gameweek 2 (scorer output covering team 7) upserts with
`onConflict: 'team_id'`, and afterwards no row for gameweek 1 exists at
all — the prior-gameweek audit row was overwritten by a run for a
different gameweek. -/
theorem c2_counterexample :
    (DBState.mk [backfillRecord 1 1 100 7] [TeamRow.mk 7 none none none]).calcs.filter
        (fun r => r.gameweek_calculated == 1) ≠ [] ∧
    ((fdrHandler (DBState.mk [backfillRecord 1 1 100 7] [TeamRow.mk 7 none none none])
        (some (GW.mk 2 "Gameweek 2"))
        (some [FdrResult.mk 7 "Arsenal" (some 10) (some 2) (some 80) (some 1) (some 60)
          (some 8) (some 6)])
        (some 1) true true 4000000 4000001 2).2.calcs.filter
        (fun r => r.gameweek_calculated == 1)) = [] ∧
    backfillRecord 1 1 100 7 ∉
      (fdrHandler (DBState.mk [backfillRecord 1 1 100 7] [TeamRow.mk 7 none none none])
        (some (GW.mk 2 "Gameweek 2"))
        (some [FdrResult.mk 7 "Arsenal" (some 10) (some 2) (some 80) (some 1) (some 60)
          (some 8) (some 6)])
        (some 1) true true 4000000 4000001 2).2.calcs := by
  refine ⟨by decide, by decide, by decide⟩

/-- C2 amended: the `team_fdr_calculations` table holds at most one row
per `team_id` overall (not per (season, gameweek)); any run upserts over
a team's existing row regardless of the gameweek it was recorded for, so
rows from prior gameweeks are retained only for teams the run does not
touch. -/
theorem c2_amended_upsert_by_team :
    (∀ (db : DBState) (currentGW : Option GW) (calcRpc : Option (List FdrResult))
      (currentSeason : Option Nat) (insertOk backfillOk : Bool) (now ts durationSec : Int),
      atMostOnePerTeam db.calcs →
      atMostOnePerTeam
        (fdrHandler db currentGW calcRpc currentSeason insertOk backfillOk
          now ts durationSec).2.calcs) ∧
    (∀ (table records : List FdrRow) (x : FdrRow), x ∈ upsertByTeam table records →
      x ∈ records ∨ (x ∈ table ∧ x.team_id ∉ records.map (·.team_id))) ∧
    (∀ (table records : List FdrRow) (x : FdrRow), x ∈ table →
      x.team_id ∉ records.map (·.team_id) → x ∈ upsertByTeam table records) := by
  refine ⟨?_, mem_upsertByTeam, mem_upsertByTeam_of_untouched⟩
  intro db currentGW calcRpc currentSeason insertOk backfillOk now ts durationSec h
  unfold fdrHandler
  by_cases hstale : isStale (lastCalcOf db.calcs) (currentGW.map (·.id)) now
  · rw [if_pos hstale]
    cases calcRpc with
    | none => exact h
    | some fdrResults =>
        by_cases hlen : fdrResults.length = 0
        · simp only [hlen, if_pos]
          exact h
        · simp only [hlen, if_neg]
          cases currentGW with
          | none => exact h
          | some gw =>
              cases currentSeason with
              | none => exact h
              | some seasonId =>
                  show atMostOnePerTeam
                    (recorderSteps db gw seasonId fdrResults insertOk backfillOk ts)
                  have h1 : atMostOnePerTeam
                      (insertStepCalcs db gw seasonId fdrResults insertOk ts) := by
                    unfold insertStepCalcs
                    cases insertOk with
                    | false => simpa using h
                    | true => simpa using atMostOnePerTeam_upsertByTeam _ _ h
                  simp only [recorderSteps]
                  split
                  · split
                    · exact atMostOnePerTeam_upsertByTeam _ _ h1
                    · exact h1
                  · exact h1
  · rw [if_neg hstale]
    cases lastCalcOf db.calcs with
    | none => exact h
    | some lc => exact h

/-- C2 amended witness: the invariant-preservation conjunct applied to a
concrete run (two teams, one prior row), and the membership conjuncts at
a concrete table. -/
theorem c2_amended_upsert_by_team_witness :
    atMostOnePerTeam
      (fdrHandler (DBState.mk [backfillRecord 1 1 100 7] [TeamRow.mk 7 none none none])
        (some (GW.mk 2 "Gameweek 2"))
        (some [FdrResult.mk 7 "Arsenal" (some 10) (some 2) (some 80) (some 1) (some 60)
          (some 8) (some 6)])
        (some 1) true true 4000000 4000001 2).2.calcs ∧
    backfillRecord 1 1 100 7 ∈ upsertByTeam [backfillRecord 1 1 100 7] [] :=
  ⟨c2_amended_upsert_by_team.1 (DBState.mk [backfillRecord 1 1 100 7]
      [TeamRow.mk 7 none none none])
      (some (GW.mk 2 "Gameweek 2"))
      (some [FdrResult.mk 7 "Arsenal" (some 10) (some 2) (some 80) (some 1) (some 60)
        (some 8) (some 6)])
      (some 1) true true 4000000 4000001 2 (by decide),
   c2_amended_upsert_by_team.2.2 [backfillRecord 1 1 100 7] []
      (backfillRecord 1 1 100 7) (List.mem_singleton.mpr rfl) (by decide)⟩

/-- Reduction of the handler on the STALE path with a successful,
non-empty scorer RPC and both the gameweek and season known. -/
theorem fdrHandler_stale_completed (db : DBState) (gw : GW) (seasonId : Nat)
    (fdrResults : List FdrResult) (insertOk backfillOk : Bool) (now ts durationSec : Int)
    (hstale : isStale (lastCalcOf db.calcs) (some gw.id) now = true)
    (hne : ¬ fdrResults.length = 0) :
    fdrHandler db (some gw) (some fdrResults) (some seasonId) insertOk backfillOk
        now ts durationSec =
      (FdrOutcome.completed
        { gameweek := gw.name
          teams_updated := fdrResults.length
          duration_seconds := durationSec
          sample_ratings := (fdrResults.take 3).map mkSample },
       { calcs := recorderSteps db gw seasonId fdrResults insertOk backfillOk ts
         teams := updateTeams db.teams fdrResults ts }) := by
  unfold fdrHandler
  rw [if_pos (by simpa using hstale)]
  simp only [if_neg hne]

/-- Every known team keeps or gains a `team_fdr_calculations` row. -/
theorem recorderSteps_covers (db : DBState) (gw : GW) (seasonId : Nat)
    (fdrResults : List FdrResult) (insertOk : Bool) (ts : Int) (t : Nat)
    (ht : t ∈ allTeamIds db) :
    ∃ row ∈ recorderSteps db gw seasonId fdrResults insertOk true ts,
      row.team_id = t := by
  by_cases hmem : t ∈ (insertStepCalcs db gw seasonId fdrResults insertOk ts).map (·.team_id)
  · rcases List.mem_map.mp hmem with ⟨row, hrow, hte⟩
    simp only [recorderSteps]
    split
    · split
      · exact exists_team_upsertByTeam_of_table _ _ t ⟨row, hrow, hte⟩
      · exact ⟨row, hrow, hte⟩
    · exact ⟨row, hrow, hte⟩
  · have hmiss : t ∈ missingTeams db (insertStepCalcs db gw seasonId fdrResults insertOk ts) := by
      unfold missingTeams
      refine List.mem_filter.mpr ⟨ht, ?_⟩
      simpa using hmem
    have hlen : 0 < (missingTeams db
        (insertStepCalcs db gw seasonId fdrResults insertOk ts)).length :=
      List.length_pos.mpr (List.ne_nil_of_mem hmiss)
    simp only [recorderSteps]
    rw [if_pos hlen, if_pos trivial]
    apply exists_team_upsertByTeam_of_records
    rw [List.map_map]
    exact List.mem_map.mpr ⟨t, hmiss, rfl⟩

/-- A team with no `team_fdr_calculations` row at all after the insert
step receives exactly the neutral-default backfill record. -/
theorem recorderSteps_backfills (db : DBState) (gw : GW) (seasonId : Nat)
    (fdrResults : List FdrResult) (insertOk : Bool) (ts : Int) (t : Nat)
    (ht : t ∈ missingTeams db (insertStepCalcs db gw seasonId fdrResults insertOk ts)) :
    backfillRecord seasonId gw.id ts t ∈
      recorderSteps db gw seasonId fdrResults insertOk true ts := by
  have hlen : 0 < (missingTeams db
      (insertStepCalcs db gw seasonId fdrResults insertOk ts)).length :=
    List.length_pos.mpr (List.ne_nil_of_mem ht)
  simp only [recorderSteps]
  rw [if_pos hlen, if_pos trivial]
  apply mem_upsertByTeam_of_functional
  · exact List.mem_map.mpr ⟨t, ht, rfl⟩
  · intro r' hr' hteam
    rcases List.mem_map.mp hr' with ⟨t', ht', rfl⟩
    have : t' = t := hteam
    rw [this]

/-- C3 counterexample: after a full Recorder run the count of
`team_fdr_calculations` rows for the current gameweek need not equal the
count of known teams.  20 teams are known; the scorer output covers
teams 1–19; team 20 already has a row from gameweek 1, so the
no-gameweek-filter validation (`select('team_id')`) does not treat it as
missing, no backfill happens, and only 19 rows carry the current
gameweek 2 — team 20 is left with its stale gameweek-1 row. -/
theorem c3_counterexample :
    (allTeamIds (DBState.mk [backfillRecord 1 1 50 20]
      ((List.range 20).map (fun i => TeamRow.mk (i + 1) none none none)))).length = 20 ∧
    ((fdrHandler (DBState.mk [backfillRecord 1 1 50 20]
        ((List.range 20).map (fun i => TeamRow.mk (i + 1) none none none)))
      (some (GW.mk 2 "Gameweek 2"))
      (some ((List.range 19).map (fun i =>
        FdrResult.mk (i + 1) "Team" (some 5) (some 1) (some 50) (some 1)
          (some 50) (some 6) (some 6))))
      (some 1) true true 4000000 4000001 2).2.calcs.filter
        (fun r => r.gameweek_calculated == 2)).length = 19 ∧
    ((fdrHandler (DBState.mk [backfillRecord 1 1 50 20]
        ((List.range 20).map (fun i => TeamRow.mk (i + 1) none none none)))
      (some (GW.mk 2 "Gameweek 2"))
      (some ((List.range 19).map (fun i =>
        FdrResult.mk (i + 1) "Team" (some 5) (some 1) (some 50) (some 1)
          (some 50) (some 6) (some 6))))
      (some 1) true true 4000000 4000001 2).2.calcs.filter
        (fun r => r.team_id == 20 && r.gameweek_calculated == 2)) = [] := by
  refine ⟨by decide, by decide, by decide⟩

/-- C3 amended: after a full Recorder run (gameweek and season known,
backfill write succeeding), every known team has some
`team_fdr_calculations` row; a known team with no row at all after the
record upsert receives exactly the neutral-default backfill row for the
current gameweek.  (A team absent from the Scorer's output that already
has a row — possibly from a prior gameweek — keeps that row instead, so
the count of rows carrying the current gameweek can be below the count
of known teams.) -/
theorem c3_amended (db : DBState) (gw : GW) (seasonId : Nat)
    (fdrResults : List FdrResult) (insertOk : Bool) (now ts durationSec : Int)
    (hstale : isStale (lastCalcOf db.calcs) (some gw.id) now = true)
    (hne : ¬ fdrResults.length = 0) :
    (∀ t ∈ allTeamIds db,
      ∃ row ∈ (fdrHandler db (some gw) (some fdrResults) (some seasonId) insertOk true
          now ts durationSec).2.calcs, row.team_id = t) ∧
    (∀ t ∈ missingTeams db (insertStepCalcs db gw seasonId fdrResults insertOk ts),
      backfillRecord seasonId gw.id ts t ∈
        (fdrHandler db (some gw) (some fdrResults) (some seasonId) insertOk true
          now ts durationSec).2.calcs) := by
  rw [fdrHandler_stale_completed db gw seasonId fdrResults insertOk true now ts durationSec
    hstale hne]
  exact ⟨fun t ht => recorderSteps_covers db gw seasonId fdrResults insertOk ts t ht,
         fun t ht => recorderSteps_backfills db gw seasonId fdrResults insertOk ts t ht⟩

/-- C3 amended witness: a run over one known team with no prior rows and
an empty-of-that-team scorer output gives the team a backfill row. -/
theorem c3_amended_witness :
    (∃ row ∈ (fdrHandler (DBState.mk [] [TeamRow.mk 1 none none none])
        (some (GW.mk 2 "Gameweek 2"))
        (some [FdrResult.mk 2 "Spurs" (some 4) (some 1) (some 40) (some 1) (some 40)
          (some 5) (some 5)])
        (some 1) true true 4000000 4000001 2).2.calcs, row.team_id = 1) ∧
    backfillRecord 1 2 4000001 1 ∈
      (fdrHandler (DBState.mk [] [TeamRow.mk 1 none none none])
        (some (GW.mk 2 "Gameweek 2"))
        (some [FdrResult.mk 2 "Spurs" (some 4) (some 1) (some 40) (some 1) (some 40)
          (some 5) (some 5)])
        (some 1) true true 4000000 4000001 2).2.calcs :=
  ⟨(c3_amended (DBState.mk [] [TeamRow.mk 1 none none none]) (GW.mk 2 "Gameweek 2") 1
      [FdrResult.mk 2 "Spurs" (some 4) (some 1) (some 40) (some 1) (some 40)
        (some 5) (some 5)]
      true 4000000 4000001 2 (by decide) (by decide)).1 1 (by decide),
   (c3_amended (DBState.mk [] [TeamRow.mk 1 none none none]) (GW.mk 2 "Gameweek 2") 1
      [FdrResult.mk 2 "Spurs" (some 4) (some 1) (some 40) (some 1) (some 40)
        (some 5) (some 5)]
      true 4000000 4000001 2 (by decide) (by decide)).2 1 (by decide)⟩

/-- The calculation records a run writes into `team_fdr_calculations`:
one record per scorer-output row (Step 3) plus one neutral-default
record per missing team (Step 3.5). -/
def runWrittenRecords (db : DBState) (gw : GW) (seasonId : Nat)
    (fdrResults : List FdrResult) (insertOk : Bool) (ts : Int) : List FdrRow :=
  fdrResults.map (mkCalcRecord seasonId gw.id ts) ++
    (missingTeams db (insertStepCalcs db gw seasonId fdrResults insertOk ts)).map
      (backfillRecord seasonId gw.id ts)

/-- C4: every team with zero games played receives the neutral
difficulty rating 5 for both home and away in its recorded calculation —
via the backfill defaults, or via the `|| 5` fallbacks on a scorer
output that satisfies the spec's zero-games contract. -/
theorem c4_zero_games_neutral (db : DBState) (gw : GW) (seasonId : Nat)
    (fdrResults : List FdrResult) (insertOk : Bool) (ts : Int)
    (hspec : specScorerNeutralZeroGames fdrResults) :
    ∀ rec ∈ runWrittenRecords db gw seasonId fdrResults insertOk ts,
      rec.games_played = 0 → rec.home_difficulty = 5 ∧ rec.away_difficulty = 5 := by
  intro rec hrec hzero
  rcases List.mem_append.mp hrec with hm | hb
  · rcases List.mem_map.mp hm with ⟨r, hr, rfl⟩
    have hz : r.games_played = none ∨ r.games_played = some 0 :=
      (jsOr_eq_zero_iff r.games_played).mp hzero
    obtain ⟨h5, a5⟩ := hspec r hr hz
    constructor
    · show jsOr r.home_difficulty 5 = 5
      rw [h5]
      rfl
    · show jsOr r.away_difficulty 5 = 5
      rw [a5]
      rfl
  · rcases List.mem_map.mp hb with ⟨t, ht, rfl⟩
    exact ⟨rfl, rfl⟩

/-- C4 witness: a zero-games team in the scorer output (rated 5 per the
spec contract) and a backfilled team both end with home and away
difficulty 5 in their records. -/
theorem c4_zero_games_neutral_witness :
    (mkCalcRecord 1 2 500 (FdrResult.mk 3 "Leeds" none none none none none
        (some 5) (some 5))).home_difficulty = 5 ∧
    (mkCalcRecord 1 2 500 (FdrResult.mk 3 "Leeds" none none none none none
        (some 5) (some 5))).away_difficulty = 5 :=
  c4_zero_games_neutral (DBState.mk [] []) (GW.mk 2 "Gameweek 2") 1
    [FdrResult.mk 3 "Leeds" none none none none none (some 5) (some 5)]
    true 500 (by decide)
    (mkCalcRecord 1 2 500 (FdrResult.mk 3 "Leeds" none none none none none
      (some 5) (some 5)))
    (List.mem_append.mpr (Or.inl (List.mem_singleton.mpr rfl)))
    (by decide)

/-- The `teams`-table row for a team id (`find?` on the id). -/
def teamRatingOf (db : DBState) (teamId : Nat) : Option TeamRow :=
  db.teams.find? (fun t => t.id == teamId)

/-- The most recent `team_fdr_calculations` row for one team. -/
def latestCalcFor (db : DBState) (teamId : Nat) : Option FdrRow :=
  lastCalcOf (db.calcs.filter (fun r => r.team_id == teamId))

/-- C6 counterexample: a team whose calculation row comes from the
backfill path does not get its TeamRating projected.  Teams 1 and 20 are
known; the scorer output covers only team 1; team 20 is backfilled with
difficulty 5 into `team_fdr_calculations`, but Step 4 iterates only over
the scorer output, so team 20's `teams` row keeps its old
home/away difficulty 3 and stale `updated_at` — it does not equal its
most recent calculation row. -/
theorem c6_counterexample :
    ((latestCalcFor ((fdrHandler
        (DBState.mk [] [TeamRow.mk 1 none none none, TeamRow.mk 20 (some 3) (some 3) (some 100)])
        (some (GW.mk 2 "Gameweek 2"))
        (some [FdrResult.mk 1 "Arsenal" (some 10) (some 2) (some 80) (some 1) (some 60)
          (some 8) (some 6)])
        (some 9) true true 1000 999 2).2) 20).map (fun r => r.home_difficulty) = some 5) ∧
    ((latestCalcFor ((fdrHandler
        (DBState.mk [] [TeamRow.mk 1 none none none, TeamRow.mk 20 (some 3) (some 3) (some 100)])
        (some (GW.mk 2 "Gameweek 2"))
        (some [FdrResult.mk 1 "Arsenal" (some 10) (some 2) (some 80) (some 1) (some 60)
          (some 8) (some 6)])
        (some 9) true true 1000 999 2).2) 20).map (fun r => r.away_difficulty) = some 5) ∧
    teamRatingOf ((fdrHandler
        (DBState.mk [] [TeamRow.mk 1 none none none, TeamRow.mk 20 (some 3) (some 3) (some 100)])
        (some (GW.mk 2 "Gameweek 2"))
        (some [FdrResult.mk 1 "Arsenal" (some 10) (some 2) (some 80) (some 1) (some 60)
          (some 8) (some 6)])
        (some 9) true true 1000 999 2).2) 20 =
      some (TeamRow.mk 20 (some 3) (some 3) (some 100)) := by
  refine ⟨by decide, by decide, by decide⟩

/-- C6 amended: the TeamRating projection covers exactly the teams in
the Scorer's output — for each such team (team ids distinct in the
output) the `teams` row takes the output's raw home/away difficulty and
`updated_at := ts`; teams whose calculation row came only from the
backfill path are not projected. -/
theorem c6_amended (db : DBState) (gw : GW) (seasonId : Nat)
    (fdrResults : List FdrResult) (insertOk backfillOk : Bool) (now ts durationSec : Int)
    (hstale : isStale (lastCalcOf db.calcs) (some gw.id) now = true)
    (hne : ¬ fdrResults.length = 0)
    (hnodup : (fdrResults.map (·.team_id)).Nodup) :
    ∀ r ∈ fdrResults,
      ∀ trow ∈ (fdrHandler db (some gw) (some fdrResults) (some seasonId)
          insertOk backfillOk now ts durationSec).2.teams,
        trow.id = r.team_id →
        trow.home_difficulty = r.home_difficulty ∧
        trow.away_difficulty = r.away_difficulty ∧
        trow.updated_at = some ts := by
  rw [fdrHandler_stale_completed db gw seasonId fdrResults insertOk backfillOk now ts
    durationSec hstale hne]
  intro r hr trow htrow hid
  rcases mem_updateTeams db.teams fdrResults ts trow htrow with ⟨row, hrow, rfl⟩
  exact foldl_applyUpdate_sets_fields fdrResults ts row r hr
    ((foldl_applyUpdate_id fdrResults ts row).symm.trans hid).symm.symm hnodup

/-- C6 amended witness: a one-team run projects that team's rating and
stamps `updated_at`. -/
theorem c6_amended_witness :
    (TeamRow.mk 1 (some 8) (some 6) (some 999)).home_difficulty = some 8 ∧
    (TeamRow.mk 1 (some 8) (some 6) (some 999)).away_difficulty = some 6 ∧
    (TeamRow.mk 1 (some 8) (some 6) (some 999)).updated_at = some 999 :=
  c6_amended (DBState.mk [] [TeamRow.mk 1 (some 2) (some 2) (some 100)])
    (GW.mk 2 "Gameweek 2") 9
    [FdrResult.mk 1 "Arsenal" (some 10) (some 2) (some 80) (some 1) (some 60)
      (some 8) (some 6)]
    true true 1000 999 2 (by decide) (by decide) (by decide)
    (FdrResult.mk 1 "Arsenal" (some 10) (some 2) (some 80) (some 1) (some 60)
      (some 8) (some 6))
    (List.mem_singleton.mpr rfl)
    (TeamRow.mk 1 (some 8) (some 6) (some 999))
    (by decide) rfl

/-- C7 counterexample: the success response of `POST /api/fdr/calculate`
carries per-team sample ratings, the teams-updated count and the
duration, but no `errors` count at all — neither at the top level, nor
in `stats`, nor per sample entry — so a response cannot "always contain
an errors count". -/
theorem c7_counterexample :
    ((fdrHandler (DBState.mk [] [TeamRow.mk 1 none none none])
      (some (GW.mk 2 "Gameweek 2"))
      (some [FdrResult.mk 1 "Arsenal" (some 10) (some 2) (some 80) (some 1) (some 60)
        (some 8) (some 6)])
      (some 9) true true 1000 999 2).1).isCompleted = true ∧
    "errors" ∉ calcResponseTopKeys ∧
    "errors" ∉ calcResponseStatsKeys ∧
    "errors" ∉ sampleRatingKeys := by
  refine ⟨by decide, by decide, by decide, by decide⟩

/-- C7 amended: a completed run's response reports the per-team sample
ratings (first three scorer-output rows), the teams-updated count and
the duration; it contains no errors-count field (audit-write failures
are only logged), so callers cannot read an error count from it. -/
theorem c7_amended (db : DBState) (gw : GW) (seasonId : Nat)
    (fdrResults : List FdrResult) (insertOk backfillOk : Bool) (now ts durationSec : Int)
    (hstale : isStale (lastCalcOf db.calcs) (some gw.id) now = true)
    (hne : ¬ fdrResults.length = 0) :
    (fdrHandler db (some gw) (some fdrResults) (some seasonId) insertOk backfillOk
        now ts durationSec).1 =
      FdrOutcome.completed
        { gameweek := gw.name
          teams_updated := fdrResults.length
          duration_seconds := durationSec
          sample_ratings := (fdrResults.take 3).map mkSample } ∧
    "errors" ∉ calcResponseTopKeys ∧
    "errors" ∉ calcResponseStatsKeys ∧
    "errors" ∉ sampleRatingKeys := by
  refine ⟨?_, by decide, by decide, by decide⟩
  rw [fdrHandler_stale_completed db gw seasonId fdrResults insertOk backfillOk now ts
    durationSec hstale hne]

/-- C7 amended witness: a concrete completed run's response. -/
theorem c7_amended_witness :
    (fdrHandler (DBState.mk [] [TeamRow.mk 1 none none none])
        (some (GW.mk 2 "Gameweek 2"))
        (some [FdrResult.mk 1 "Arsenal" (some 10) (some 2) (some 80) (some 1) (some 60)
          (some 8) (some 6)])
        (some 9) true true 1000 999 2).1 =
      FdrOutcome.completed
        { gameweek := "Gameweek 2"
          teams_updated := 1
          duration_seconds := 2
          sample_ratings := ([FdrResult.mk 1 "Arsenal" (some 10) (some 2) (some 80)
            (some 1) (some 60) (some 8) (some 6)].take 3).map mkSample } ∧
    "errors" ∉ calcResponseTopKeys :=
  ⟨(c7_amended (DBState.mk [] [TeamRow.mk 1 none none none]) (GW.mk 2 "Gameweek 2") 9
      [FdrResult.mk 1 "Arsenal" (some 10) (some 2) (some 80) (some 1) (some 60)
        (some 8) (some 6)]
      true true 1000 999 2 (by decide) (by decide)).1,
   (c7_amended (DBState.mk [] [TeamRow.mk 1 none none none]) (GW.mk 2 "Gameweek 2") 9
      [FdrResult.mk 1 "Arsenal" (some 10) (some 2) (some 80) (some 1) (some 60)
        (some 8) (some 6)]
      true true 1000 999 2 (by decide) (by decide)).2.1⟩

/-- C9 counterexample: a run of the calculate endpoint in which the
current gameweek cannot be determined (the `gameweeks` query returns
nothing) does not abort: the staleness comparison against `undefined`
makes the data stale, the record-storing steps are silently skipped, and
the run completes with a success response. -/
theorem c9_counterexample :
    ((fdrHandler (DBState.mk [backfillRecord 1 1 50 7] [TeamRow.mk 7 none none none])
      none
      (some [FdrResult.mk 7 "Arsenal" (some 10) (some 2) (some 80) (some 1) (some 60)
        (some 8) (some 6)])
      (some 1) true true 4000000 4000001 2).1).isFailed = false ∧
    ((fdrHandler (DBState.mk [backfillRecord 1 1 50 7] [TeamRow.mk 7 none none none])
      none
      (some [FdrResult.mk 7 "Arsenal" (some 10) (some 2) (some 80) (some 1) (some 60)
        (some 8) (some 6)])
      (some 1) true true 4000000 4000001 2).1).isCompleted = true := by
  refine ⟨by decide, by decide⟩

/-- C9 amended: per-player fetch failures and per-row persistence
failures in the quick sync are caught and counted without aborting the
sibling work — the sync aborts exactly when the current gameweek or the
fixtures list cannot be determined, and its error counter is the sum of
the per-player error counts; the calculate run (given a stale gate)
aborts exactly when the scorer RPC fails or returns no teams, while a
missing current gameweek or season there only skips the audit-record
steps. -/
theorem c9_amended :
    (∀ (currentGW : Option GW) (fixtures : Option (List Fixture))
        (fetch : Nat → FetchOutcome) (upsertOk : Nat → Int → Bool),
      (quickStatsRun currentGW fixtures fetch upsertOk).isFailed = true ↔
        (currentGW = none ∨ fixtures = none)) ∧
    (∀ (gw : GW) (fs : List Fixture) (fetch : Nat → FetchOutcome)
        (upsertOk : Nat → Int → Bool),
      quickStatsRun (some gw) (some fs) fetch upsertOk =
        QuickOutcome.success
          { players_synced := (recentPlayerIds fs gw.id).length
            stats_updated := ((recentPlayerIds fs gw.id).map
              (fun p => (syncPlayer gw.id p (fetch p) upsertOk).1)).sum
            errors := ((recentPlayerIds fs gw.id).map
              (fun p => (syncPlayer gw.id p (fetch p) upsertOk).2)).sum }) ∧
    (∀ (db : DBState) (currentGW : Option GW) (calcRpc : Option (List FdrResult))
        (currentSeason : Option Nat) (insertOk backfillOk : Bool) (now ts durationSec : Int),
      isStale (lastCalcOf db.calcs) (currentGW.map (·.id)) now = true →
      ((fdrHandler db currentGW calcRpc currentSeason insertOk backfillOk
          now ts durationSec).1.isFailed = true ↔
        (calcRpc = none ∨ calcRpc = some []))) := by
  refine ⟨?_, ?_, ?_⟩
  · intro currentGW fixtures fetch upsertOk
    cases currentGW with
    | none => simp [quickStatsRun, QuickOutcome.isFailed]
    | some gw =>
        cases fixtures with
        | none => simp [quickStatsRun, QuickOutcome.isFailed]
        | some fs => simp [quickStatsRun, QuickOutcome.isFailed]
  · intro gw fs fetch upsertOk
    simp only [quickStatsRun]
    rw [quickStats_totals]
    simp
  · intro db currentGW calcRpc currentSeason insertOk backfillOk now ts durationSec hstale
    unfold fdrHandler
    rw [if_pos hstale]
    cases calcRpc with
    | none => simp [FdrOutcome.isFailed]
    | some fdrResults =>
        by_cases hlen : fdrResults.length = 0
        · rw [List.length_eq_zero] at hlen
          subst hlen
          simp [FdrOutcome.isFailed]
        · have hne : fdrResults ≠ [] := by
            intro h
            exact hlen (by simp [h])
          simp only [if_neg hlen]
          simp [FdrOutcome.isFailed, hne]

/-- C9 amended witness: the calculate-run conjunct applied at a concrete
stale state with a failing scorer RPC — the run aborts. -/
theorem c9_amended_witness :
    (fdrHandler (DBState.mk [] []) (some (GW.mk 2 "Gameweek 2")) none (some 1)
        true true 0 0 0).1.isFailed = true :=
  (c9_amended.2.2 (DBState.mk [] []) (some (GW.mk 2 "Gameweek 2")) none (some 1)
    true true 0 0 0 (by decide)).mpr (Or.inl rfl)

theorem mem_recentGWs_pos (g gw : Int) (h : gw ∈ recentGWs g) : 0 < gw := by
  unfold recentGWs at h
  simpa using (List.mem_filter.mp h).2

theorem isRecentFixture_iff (g : Int) (f : Fixture) :
    isRecentFixture g f = true ↔
      (f.finished = true ∧ ∃ e, f.event = some e ∧ e ∈ recentGWs g) := by
  unfold isRecentFixture
  cases hfe : f.event with
  | none => simp [hfe]
  | some e =>
      simp only [hfe, Bool.and_eq_true, decide_eq_true_eq, Option.some.injEq]
      constructor
      · rintro ⟨hfin, -, hmem⟩
        exact ⟨hfin, e, rfl, by simpa using hmem⟩
      · rintro ⟨hfin, e2, he2, hmem⟩
        have heq : e = e2 := he2
        refine ⟨hfin, ?_, ?_⟩
        · have hpos := mem_recentGWs_pos g e2 hmem
          omega
        · rw [heq]
          simpa using hmem

/-- C5: the "recent" sync tier is exactly the deduplicated set of player
ids appearing in the participant lists (home or away) of some finished
fixture whose gameweek lies in the recent-gameweek window; a player id
appearing only in other fixtures is excluded, and the resulting list has
no duplicates. -/
theorem c5_recent_tier (fixtures : List Fixture) (g : Int) :
    (∀ p : Nat, p ∈ recentPlayerIds fixtures g ↔
      ∃ f ∈ fixtures, f.finished = true ∧
        (∃ e, f.event = some e ∧ e ∈ recentGWs g) ∧ p ∈ fixturePlayers f) ∧
    (recentPlayerIds fixtures g).Nodup := by
  constructor
  · intro p
    unfold recentPlayerIds
    rw [mem_dedupList, List.mem_flatten]
    constructor
    · rintro ⟨l, hl, hp⟩
      rcases List.mem_map.mp hl with ⟨f, hf, rfl⟩
      have hfc := List.mem_filter.mp hf
      obtain ⟨hfin, he⟩ := (isRecentFixture_iff g f).mp hfc.2
      exact ⟨f, hfc.1, hfin, he, hp⟩
    · rintro ⟨f, hf, hfin, he, hp⟩
      refine ⟨fixturePlayers f, List.mem_map.mpr ⟨f, ?_, rfl⟩, hp⟩
      exact List.mem_filter.mpr ⟨hf, (isRecentFixture_iff g f).mpr ⟨hfin, he⟩⟩
  · exact nodup_dedupList _

/-- C5 witness: the spec's scenario — with gameweeks 21–23 finished and
current gameweek 23, a player in a finished gameweek-22 fixture is in
the tier, and a player appearing only in a finished gameweek-20 fixture
is not. -/
theorem c5_recent_tier_witness :
    (77 ∈ recentPlayerIds
      [Fixture.mk (some 22) true (some [StatEntry.mk (some [77]) (some [88])]),
       Fixture.mk (some 20) true (some [StatEntry.mk (some [99]) none])] 23) ∧
    ¬ (99 ∈ recentPlayerIds
      [Fixture.mk (some 22) true (some [StatEntry.mk (some [77]) (some [88])]),
       Fixture.mk (some 20) true (some [StatEntry.mk (some [99]) none])] 23) :=
  ⟨((c5_recent_tier
      [Fixture.mk (some 22) true (some [StatEntry.mk (some [77]) (some [88])]),
       Fixture.mk (some 20) true (some [StatEntry.mk (some [99]) none])] 23).1 77).mpr
    ⟨Fixture.mk (some 22) true (some [StatEntry.mk (some [77]) (some [88])]),
     List.mem_cons_self _ _, rfl, ⟨22, rfl, by decide⟩, by decide⟩,
   fun hmem => by
    rcases ((c5_recent_tier
      [Fixture.mk (some 22) true (some [StatEntry.mk (some [77]) (some [88])]),
       Fixture.mk (some 20) true (some [StatEntry.mk (some [99]) none])] 23).1 99).mp
      hmem with ⟨f, hf, -, ⟨e, he, hrec⟩, hp⟩
    rcases List.mem_cons.mp hf with rfl | hf2
    · exact absurd hp (by decide)
    · rcases List.mem_cons.mp hf2 with rfl | hf3
      · rw [show e = 20 from by injection he with h; exact h.symm] at hrec
        exact absurd hrec (by decide)
      · simp at hf3⟩

/-- A sample `element-summary` history entry (gameweek 3). -/
def sampleGwData : GwData :=
  { round := 3
    opponent_team := 4
    was_home := true
    kickoff_time := 1700000000
    total_points := 2
    minutes := 90
    goals_scored := 0
    assists := 0
    clean_sheets := 1
    goals_conceded := 0
    bonus := 0
    bps := 10
    own_goals := none
    penalties_saved := none
    penalties_missed := none
    yellow_cards := some 1
    red_cards := none
    saves := none
    expected_goals := none
    expected_assists := none
    expected_goal_involvements := none
    expected_goals_conceded := none
    value := 50
    selected := 1000
    transfers_in := none
    transfers_out := none
    influence := none
    creativity := none
    threat := none
    ict_index := none }

/-- C10: the recent gameweek window is `{G, G-1, G-2}` restricted to
strictly positive ids (`[1]` at gameweek 1, `[2, 1]` at gameweek 2), and
every stat row a quick sync stores is matched against that window, so
its gameweek id is strictly positive and inside the window. -/
theorem c10_recent_window_positive (g : Int) :
    (∀ gw : Int, gw ∈ recentGWs g ↔ ((gw = g ∨ gw = g - 1 ∨ gw = g - 2) ∧ 0 < gw)) ∧
    recentGWs 1 = [1] ∧ recentGWs 2 = [2, 1] ∧
    (∀ (playerId : Nat) (history : List GwData) (row : StatRow),
      row ∈ storedRows playerId history g →
      0 < row.gameweek_id ∧ row.gameweek_id ∈ recentGWs g) := by
  refine ⟨?_, by decide, by decide, ?_⟩
  · intro gw
    unfold recentGWs
    rw [List.mem_filter]
    simp
  · intro playerId history row hrow
    unfold storedRows at hrow
    rcases List.mem_map.mp hrow with ⟨d, hd, rfl⟩
    have hmem : d.round ∈ recentGWs g := by
      simpa using (List.mem_filter.mp hd).2
    exact ⟨mem_recentGWs_pos g d.round hmem, hmem⟩

/-- C10 witness: a stored row built from a gameweek-3 history entry at
current gameweek 3 has a positive gameweek id inside the window. -/
theorem c10_recent_window_positive_witness :
    0 < (mkStatRow 42 sampleGwData).gameweek_id ∧
    (mkStatRow 42 sampleGwData).gameweek_id ∈ recentGWs 3 :=
  (c10_recent_window_positive 3).2.2.2 42 [sampleGwData] (mkStatRow 42 sampleGwData)
    (show mkStatRow 42 sampleGwData ∈ storedRows 42 [sampleGwData] 3 from
      List.mem_singleton.mpr rfl)
